import Mathlib

/-!
Verification development for the JLS writer/reader library.

The repository's `src/` tree contains the Python binding (`pyjls/binding.pyx`),
the node binding declarations, and the C unit-test suite; the C storage core
itself is not present.  Definitions below are therefore of two kinds:

* direct shallow embeddings of the Python binding code (`storage_pack`,
  `storage_unpack`, `writer_fsr`, `fsr_omit_data_enable_u32`, the data-type
  encoding), translated line by line from `src/pyjls/binding.pyx`;
* models of the absent C core, each marked with a doc comment starting
  `Modelled from the spec:`, faithful to the spec's description of the
  writer facade, FSR track, statistics pipeline, timestamp track and reader,
  with behaviour pinned by the repository's own C test expectations where
  the spec leaves a value open.

Machine integers are modelled as `Nat`/`Int`; sample values as `ℚ`
(floating-point NaN fill is modelled as the `none` case of `Option ℚ`).
-/

namespace JLS

/-- Error kinds of the library (spec section 7); only the codes the claims
mention are modelled.  `0 = OK` is modelled by `Option JlsError = none` or
`Except.ok`. -/
inductive JlsError where
  | parameterInvalid
  | notFound
  | alreadyExists
  | unsupported
  deriving DecidableEq, Repr

/-! ## Data-type encoding (from `src/pyjls/binding.pyx`, `_data_type_def`) -/

/-- `_data_type_def(basetype, size, q)` from `binding.pyx`:
`(basetype & 0x0f) | ((size & 0xff) << 8) | ((q & 0xff) << 16)`. -/
def data_type_def (basetype size q : Nat) : Nat :=
  (basetype &&& 0x0f) ||| ((size &&& 0xff) <<< 8) ||| ((q &&& 0xff) <<< 16)

/-- `_DataTypeBase.INT` -/
def baseINT : Nat := 0x01
/-- `_DataTypeBase.UINT` -/
def baseUINT : Nat := 0x03
/-- `_DataTypeBase.FLOAT` -/
def baseFLOAT : Nat := 0x04

/-- `DataType.U1` -/
def dtU1 : Nat := data_type_def baseUINT 1 0
/-- `DataType.U4` -/
def dtU4 : Nat := data_type_def baseUINT 4 0
/-- `DataType.U8` -/
def dtU8 : Nat := data_type_def baseUINT 8 0
/-- `DataType.U16` -/
def dtU16 : Nat := data_type_def baseUINT 16 0
/-- `DataType.U32` -/
def dtU32 : Nat := data_type_def baseUINT 32 0
/-- `DataType.U64` -/
def dtU64 : Nat := data_type_def baseUINT 64 0
/-- `DataType.I4` -/
def dtI4 : Nat := data_type_def baseINT 4 0
/-- `DataType.I8` -/
def dtI8 : Nat := data_type_def baseINT 8 0
/-- `DataType.I16` -/
def dtI16 : Nat := data_type_def baseINT 16 0
/-- `DataType.I32` -/
def dtI32 : Nat := data_type_def baseINT 32 0
/-- `DataType.I64` -/
def dtI64 : Nat := data_type_def baseINT 64 0
/-- `DataType.F32` -/
def dtF32 : Nat := data_type_def baseFLOAT 32 0
/-- `DataType.F64` -/
def dtF64 : Nat := data_type_def baseFLOAT 64 0

/-- numpy dtypes that appear as values of `_data_type_map` in `binding.pyx`. -/
inductive NpDtype where
  | uint8 | uint16 | uint32 | uint64
  | int8 | int16 | int32 | int64
  | float32 | float64
  deriving DecidableEq, Repr

/-- `_data_type_map` from `binding.pyx`: the numpy dtype used to hold samples
of each JLS data type (1/4-bit types are packed into `uint8`). -/
def data_type_map (dt : Nat) : Option NpDtype :=
  if dt = dtU1 then some .uint8
  else if dt = dtU4 then some .uint8
  else if dt = dtU8 then some .uint8
  else if dt = dtU16 then some .uint16
  else if dt = dtU32 then some .uint32
  else if dt = dtU64 then some .uint64
  else if dt = dtI4 then some .uint8
  else if dt = dtI8 then some .int8
  else if dt = dtI16 then some .int16
  else if dt = dtI32 then some .int32
  else if dt = dtI64 then some .int64
  else if dt = dtF32 then some .float32
  else if dt = dtF64 then some .float64
  else none

/-! ## Storage pack/unpack (from `src/pyjls/binding.pyx`) -/

/-- `jls_storage_type_e` (from `c_jls.pxd` in the source tree). -/
inductive StorageType where
  | invalid
  | binary
  | string
  | json
  deriving DecidableEq, Repr

/-- A Python value passed to `_storage_pack`: `None`, `str`, `bytes`, or any
other (JSON-serializable) object of type `J`. -/
inductive PyData (J : Type) where
  | pyNone
  | pyStr (s : String)
  | pyBytes (b : List Nat)
  | pyObj (j : J)
  deriving DecidableEq

/-- A Python value returned by `_storage_unpack`: `str`, `bytes`, or the
result of `json.loads` of type `P`. -/
inductive PyVal (P : Type) where
  | str (s : String)
  | bytes (b : List Nat)
  | obj (p : P)
  deriving DecidableEq

/-- `_encode_str` from `binding.pyx`: UTF-8 encode (`enc` stands for the
Python runtime's `str.encode`) and append one NUL byte. -/
def encode_str (enc : String → List Nat) (s : String) : List Nat :=
  enc s ++ [0]

/-- `_storage_pack` from `binding.pyx`.  The Python runtime externals
`str.encode('utf-8')` and `json.dumps` are parameters `enc` and `dumps`.
Returns `(storage_type, payload, payload_length)`. -/
def storage_pack {J : Type} (enc : String → List Nat) (dumps : J → String) :
    PyData J → StorageType × List Nat × Nat
  | .pyNone => (.binary, [], 0)
  | .pyStr s =>
      let e := encode_str enc s
      (.string, e, e.length)
  | .pyBytes b => (.binary, b, b.length)
  | .pyObj j =>
      let e := encode_str enc (dumps j)
      (.json, e, e.length)

/-- `_storage_unpack` from `binding.pyx`.  The Python runtime externals
`bytes.decode('utf-8')` and `json.loads` are parameters `dec` and `loads`.
`STRING` drops the final NUL (`str[:data_size - 1]`) and decodes; `BINARY`
returns the raw bytes (`data[:data_size]`); anything else is decoded the
same way as `STRING` then passed to `json.loads`. -/
def storage_unpack {P : Type} (dec : List Nat → String) (loads : String → P)
    (storageType : StorageType) (data : List Nat) (dataSize : Nat) : PyVal P :=
  if storageType = .string then
    .str (dec (data.take (dataSize - 1)))
  else if storageType = .binary then
    .bytes (data.take dataSize)
  else
    .obj (loads (dec (data.take (dataSize - 1))))

/-- Helper: unpack the exact triple produced by `storage_pack`, as the
annotation/user-data read path does with the stored chunk. -/
def storage_roundtrip {J P : Type} (enc : String → List Nat) (dumps : J → String)
    (dec : List Nat → String) (loads : String → P) (d : PyData J) : PyVal P :=
  let (st, payload, sz) := storage_pack enc dumps d
  storage_unpack dec loads st payload sz

/-! ## `Writer.fsr` (from `src/pyjls/binding.pyx`) -/

/-- A numpy array argument as `Writer.fsr` sees it: its dtype and its element
count (`len(data)`). -/
structure NpArray where
  dtype : NpDtype
  length : Nat
  deriving DecidableEq, Repr

/-- One submission to the underlying C `jls_twr_fsr` call:
`(signal_id, sample_id, length)` where `length` is in samples. -/
structure FsrCall where
  signal_id : Nat
  sample_id : Int
  length : Nat
  deriving DecidableEq, Repr

/-- `Writer.fsr` from `binding.pyx`.  `signalDataType` is
`self._signals[signal_id].data_type` (set at `signal_def` time); `calls` is
the log of `jls_twr_fsr` invocations so far (the signal's submitted state).
On dtype mismatch a `ValueError` is raised before the C call, so the log is
unchanged; otherwise the element count is converted to a sample count
(`*2` when `entry_size_bits == 4`, `*8` when `entry_size_bits == 1`) and
passed to `jls_twr_fsr`. -/
def writer_fsr (signalDataType : Nat) (calls : List FsrCall)
    (signalId : Nat) (sampleId : Int) (data : NpArray) :
    Option String × List FsrCall :=
  let data_type := signalDataType
  let entry_size_bits := (data_type >>> 8) &&& 0xff
  match data_type_map (data_type &&& 0xffff) with
  | none => (some "KeyError", calls)
  | some np_type =>
      if np_type ≠ data.dtype then
        (some "ValueError: Data type mismatch", calls)
      else
        let length := data.length
        let length := if entry_size_bits = 4 then length * 2
                      else if entry_size_bits = 1 then length * 8
                      else length
        (none, calls ++ [⟨signalId, sampleId, length⟩])

/-! ## Modelled C core: per-signal FSR track

The C storage engine is not under `src/`; the following definitions model it
from the spec (sections 4.E, 4.F, 4.G, 4.J), with values the spec leaves
open pinned by the repository's own C test expectations. -/

/-- `Writer.fsr_omit_data` conversion from `binding.pyx` line 463:
`cdef uint32_t enable_u32 = 0 if bool(enable) else 1`. -/
def fsr_omit_data_enable_u32 (enable : Bool) : Nat :=
  if enable then 0 else 1

/-- Modelled from the spec: the in-memory state of one signal's FSR track
(spec 4.E/4.F/4.G).  `samples` is the conceptual level-0 stream starting at
`sample_id_offset` (the sample id of the first write); `none` entries are
the skip fill recorded for gaps.  `utc` is the timestamp track's list of
`(sample_id, timestamp)` leaves.  `data_enabled = false` means level-0 data
chunk emission was disabled by `fsr_omit_data` (summaries only); the sample
stream is still tracked here because the summary pipeline consumes it. -/
structure TrackState where
  data_type : Nat
  sample_decimate_factor : Nat := 100
  sample_id_offset : Option Int := none
  samples : List (Option ℚ) := []
  utc : List (Int × Int) := []
  data_enabled : Bool := true
  deriving DecidableEq, Repr

/-- Modelled from the spec: `jls_twr_fsr_omit_data(wr, signal_id, enable_u32)`
(declared in `c_jls.pxd`; body absent from `src/`).  Its `uint32` argument
acts as a data-storage enable: `0` disables level-0 data chunk emission for
the signal, nonzero enables it, so that the public `fsr_omit_data(signal,
bool)` operation - which the binding routes through the negation at
`binding.pyx:463` - disables emission exactly when its `bool` is true
(spec 4.F). -/
def jls_twr_fsr_omit_data (t : TrackState) (enable_u32 : Nat) : TrackState :=
  { t with data_enabled := enable_u32 != 0 }

/-- `Writer.fsr_omit_data(signal_id, enable)` from `binding.pyx`: converts
`enable` via `fsr_omit_data_enable_u32` and calls `jls_twr_fsr_omit_data`. -/
def writer_fsr_omit_data (t : TrackState) (enable : Bool) : TrackState :=
  jls_twr_fsr_omit_data t (fsr_omit_data_enable_u32 enable)

/-- Modelled from the spec: the FSR write ordering protocol (spec 4.F).
`sample_id` must be `≥` the expected next sample id.  Equal appends;
greater records the gap as skip fill (`none`); strictly less is
`ParameterInvalid`.  The first write fixes `sample_id_offset`. -/
def jls_wr_fsr (t : TrackState) (sample_id : Int) (data : List ℚ) :
    Except JlsError TrackState :=
  match t.sample_id_offset with
  | none =>
      .ok { t with sample_id_offset := some sample_id, samples := data.map some }
  | some off =>
      let expected : Int := off + t.samples.length
      if sample_id < expected then .error .parameterInvalid
      else .ok { t with samples :=
        t.samples ++ List.replicate (sample_id - expected).toNat none ++ data.map some }

/-- Modelled from the spec: the read-side decode of a skip-fill entry -
NaN for float types, bit-pattern zero for integer types (spec 4.F, 4.J).
NaN is modelled as `none`. -/
def fill_value (dt : Nat) : Option ℚ :=
  if dt &&& 0x0f = baseFLOAT then none else some 0

/-- Modelled from the spec: decode one stored level-0 entry for a reader
range read; stored values pass through, fill is regenerated per data type. -/
def decode_sample (dt : Nat) : Option ℚ → Option ℚ
  | none => fill_value dt
  | some x => some x

/-- Modelled from the spec: `jls_rd_fsr_length` - the number of samples of
the signal, from the first written sample id to the last. -/
def jls_rd_fsr_length (t : TrackState) : Nat := t.samples.length

/-- Modelled from the spec: `jls_rd_fsr` range read (spec 4.J).
Out-of-range start or length is `ParameterInvalid`; raw reads on a signal
whose data emission was disabled report that the data is not stored
(`Unsupported`, spec section 7); otherwise the full requested range is
returned with gaps decoded per data type. -/
def jls_rd_fsr (t : TrackState) (start : Int) (length : Nat) :
    Except JlsError (List (Option ℚ)) :=
  if start < 0 ∨ (t.samples.length : Int) < start + (length : Nat) then
    .error .parameterInvalid
  else if t.data_enabled = false then .error .unsupported
  else .ok (((t.samples.drop start.toNat).take length).map (decode_sample t.data_type))

/-! ## Modelled C core: incremental statistics (spec 4.D) -/

/-- Modelled from the spec: `jls_statistics_s` - Welford-style streaming
state: count `k`, running `mean`, sum of squared deviations `s` (variance is
`s / k`), and min/max (`none` while no sample was seen). -/
structure JlsStats where
  k : Nat := 0
  mean : ℚ := 0
  s : ℚ := 0
  min : Option ℚ := none
  max : Option ℚ := none
  deriving DecidableEq, Repr

/-- Modelled from the spec: `jls_statistics_reset` - the empty state. -/
def statistics_reset : JlsStats := {}

/-- Modelled from the spec: one step of Welford's online update with
separate min/max tracking. -/
def statistics_add (st : JlsStats) (x : ℚ) : JlsStats :=
  let k := st.k + 1
  let d := x - st.mean
  let mean := st.mean + d / k
  { k := k
    mean := mean
    s := st.s + d * (x - mean)
    min := some (match st.min with | none => x | some m => Min.min m x)
    max := some (match st.max with | none => x | some m => Max.max m x) }

/-- Modelled from the spec: `jls_statistics_compute` over a window. -/
def statistics_compute (xs : List ℚ) : JlsStats :=
  xs.foldl statistics_add statistics_reset

/-- Modelled from the spec: `jls_statistics_var`. -/
def statistics_var (st : JlsStats) : ℚ := st.s / st.k

/-- Min of two optional values, treating `none` as absent. -/
def option_min : Option ℚ → Option ℚ → Option ℚ
  | none, b => b
  | a, none => a
  | some a, some b => some (Min.min a b)

/-- Max of two optional values, treating `none` as absent. -/
def option_max : Option ℚ → Option ℚ → Option ℚ
  | none, b => b
  | a, none => a
  | some a, some b => some (Max.max a b)

/-- Modelled from the spec: O(1) merge of two windows'
`(count, mean, M2, min, max)` (spec 4.D). -/
def statistics_merge (a b : JlsStats) : JlsStats :=
  if a.k = 0 then b
  else if b.k = 0 then a
  else
    let k := a.k + b.k
    let d := b.mean - a.mean
    { k := k
      mean := a.mean + d * b.k / k
      s := a.s + b.s + d ^ 2 * a.k * b.k / k
      min := option_min a.min b.min
      max := option_max a.max b.max }

/-- One FSR summary entry as surfaced by `fsr_statistics`: mean, variance
(the library reports `std = sqrt var`; over `ℚ` the squared value is kept,
and since `sqrt` is injective on nonnegatives, equality of `var` is
equivalent to equality of `std`), min, max. -/
structure SummaryEntry where
  mean : ℚ
  var : ℚ
  min : ℚ
  max : ℚ
  deriving DecidableEq, Repr

/-- Modelled from the spec: the raw samples of the window
`[start, start + count)`, skip fill excluded from statistics
(spec 4.F: count excludes fill). -/
def window_values (t : TrackState) (start count : Nat) : List ℚ :=
  ((t.samples.drop start).take count).filterMap id

/-- Modelled from the spec: turn a streaming-statistics state into the
summary entry the reader returns. -/
def summary_of_stats (st : JlsStats) : SummaryEntry :=
  { mean := st.mean, var := statistics_var st, min := st.min.getD 0, max := st.max.getD 0 }

/-- Modelled from the spec: the exact statistics path - read raw samples of
the window and compute with the streaming-statistics component (spec 4.J). -/
def summary_of (xs : List ℚ) : SummaryEntry :=
  summary_of_stats (statistics_compute xs)

/-- Round `x` up to the next multiple of `m` (`m = 0` leaves `x`). -/
def round_up_multiple (x m : Nat) : Nat :=
  if m = 0 then x else ((x + m - 1) / m) * m

/-- Modelled from the spec: the approximate statistics path for one output
window (spec 4.J, `length > 1`): partition into raw head up to a level-1
block boundary, whole covered blocks (whose stored summaries were computed
from the raw samples by the writer cascade, spec 4.F), and raw tail, then
merge with the O(1) statistics merge. -/
def fsr_statistics_window_approx (t : TrackState) (w0 count : Nat) : SummaryEntry :=
  let f := t.sample_decimate_factor
  if f = 0 then summary_of (window_values t w0 count)
  else
    let w1 := w0 + count
    let b0 := round_up_multiple w0 f
    let b1 := (w1 / f) * f
    if b1 ≤ b0 then summary_of (window_values t w0 count)
    else
      let head := statistics_compute (window_values t w0 (b0 - w0))
      let tail := statistics_compute (window_values t b1 (w1 - b1))
      let blocks := (List.range ((b1 - b0) / f)).map
        fun j => statistics_compute (window_values t (b0 + j * f) f)
      summary_of_stats (statistics_merge (blocks.foldl statistics_merge head) tail)

/-- Modelled from the spec: `jls_rd_fsr_statistics` (spec 4.J).
Out-of-range requests are `ParameterInvalid`.  For `length == 1` the exact
path is always taken (raw samples of `[start, start + increment)`); for
`length > 1` each window uses the edges-exact middle-approximate path. -/
def jls_rd_fsr_statistics (t : TrackState) (start : Int) (increment length : Nat) :
    Except JlsError (List SummaryEntry) :=
  if start < 0 ∨ (t.samples.length : Int) < start + (increment * length : Nat) then
    .error .parameterInvalid
  else if length = 1 then
    .ok [summary_of (window_values t start.toNat increment)]
  else
    .ok ((List.range length).map
      fun i => fsr_statistics_window_approx t (start.toNat + i * increment) increment)

/-- The claim-side offline reference: mean of a sample window. -/
def direct_mean (xs : List ℚ) : ℚ := xs.sum / xs.length

/-- The claim-side offline reference: population variance of a window
(`std` squared), computed directly from its definition. -/
def direct_var (xs : List ℚ) : ℚ :=
  ((xs.map fun x => (x - direct_mean xs) ^ 2).sum) / xs.length

/-- The claim-side offline reference: minimum of a nonempty window. -/
def direct_min : List ℚ → ℚ
  | [] => 0
  | x :: r => r.foldl Min.min x

/-- The claim-side offline reference: maximum of a nonempty window. -/
def direct_max : List ℚ → ℚ
  | [] => 0
  | x :: r => r.foldl Max.max x

/-- The claim-side offline reference summary `{mean, std, min, max}`
computed directly from the raw samples (variance standing in for `std`,
see `SummaryEntry`). -/
def direct_summary (xs : List ℚ) : SummaryEntry :=
  { mean := direct_mean xs, var := direct_var xs, min := direct_min xs, max := direct_max xs }

/-! ## Modelled C core: writer facade tables (spec 4.H) -/

/-- `jls_source_def_s` (from `c_jls.pxd`). -/
structure SourceDefS where
  source_id : Nat
  name : String := ""
  vendor : String := ""
  model : String := ""
  version : String := ""
  serial_number : String := ""
  deriving DecidableEq, Repr

/-- `jls_signal_def_s` (from `c_jls.pxd`). -/
structure SignalDefS where
  signal_id : Nat
  source_id : Nat
  signal_type : Nat := 0
  data_type : Nat := dtF32
  sample_rate : Nat := 0
  samples_per_data : Nat := 0
  sample_decimate_factor : Nat := 0
  entries_per_summary : Nat := 0
  summary_decimate_factor : Nat := 0
  annotation_decimate_factor : Nat := 0
  utc_decimate_factor : Nat := 0
  sample_id_offset : Int := 0
  name : String := ""
  units : String := ""
  deriving DecidableEq, Repr

/-- Modelled from the spec: auto-fill of structural parameters the caller
left zero, derived from `sample_rate` (spec section 3 and section 9: about
one level-1 summary entry per second and one level-2 entry per minute; the
spec does not pin the exact table, so representative values are used -
no claim depends on the specific defaults). -/
def signal_def_fill (s : SignalDefS) : SignalDefS :=
  { s with
    samples_per_data :=
      if s.samples_per_data = 0 then Nat.max 1 s.sample_rate else s.samples_per_data
    sample_decimate_factor :=
      if s.sample_decimate_factor = 0 then Nat.max 1 s.sample_rate
      else s.sample_decimate_factor
    entries_per_summary :=
      if s.entries_per_summary = 0 then 120 else s.entries_per_summary
    summary_decimate_factor :=
      if s.summary_decimate_factor = 0 then 60 else s.summary_decimate_factor
    annotation_decimate_factor :=
      if s.annotation_decimate_factor = 0 then 100 else s.annotation_decimate_factor
    utc_decimate_factor :=
      if s.utc_decimate_factor = 0 then 100 else s.utc_decimate_factor }

/-- Modelled from the spec: alignment of the structural parameters at
definition time.  The spec requires `samples_per_data` to be a multiple of
`sample_decimate_factor` (section 3); the repository's own expectations in
`test_signal` pin the rule: `sample_decimate_factor` is rounded up to a
multiple of 8 (`100 -> 0x68 = 104`) and `samples_per_data` up to a multiple
of the adjusted factor (`1000 -> 0x410 = 1040`); `entries_per_summary` and
the annotation/utc decimate factors are stored as given. -/
def signal_def_align (s : SignalDefS) : SignalDefS :=
  let sdf := round_up_multiple s.sample_decimate_factor 8
  { s with
    sample_decimate_factor := sdf
    samples_per_data := round_up_multiple s.samples_per_data sdf }

/-- Modelled from the spec: the full signal-definition normalization
applied by `jls_wr_signal_def` - auto-fill of zero parameters, then
alignment.  A signal is finalized at definition time. -/
def signal_def_normalize (s : SignalDefS) : SignalDefS :=
  signal_def_align (signal_def_fill s)

/-- Modelled from the spec: the writer facade's session tables
(spec 4.H): sources and signals in definition order. -/
structure WrState where
  sources : List (Nat × SourceDefS) := []
  signals : List (Nat × SignalDefS) := []
  deriving DecidableEq, Repr

/-- Modelled from the spec: `jls_wr_source_def` - at most one definition
per id; a duplicate returns `AlreadyExists` and leaves the state unchanged
(spec section 3, 4.H).  Returned as `(error?, state)` mirroring the C
`(rc, side effect)` convention. -/
def jls_wr_source_def (st : WrState) (sd : SourceDefS) : Option JlsError × WrState :=
  if st.sources.any fun p => p.1 = sd.source_id then (some .alreadyExists, st)
  else (none, { st with sources := st.sources ++ [(sd.source_id, sd)] })

/-- Modelled from the spec: `jls_wr_signal_def` - the source must exist
(`NotFound` otherwise, spec 4.H ordering rules), a duplicate signal id
returns `AlreadyExists` with the state unchanged, and the stored definition
is the normalized one. -/
def jls_wr_signal_def (st : WrState) (sd : SignalDefS) : Option JlsError × WrState :=
  if ¬ st.sources.any fun p => p.1 = sd.source_id then (some .notFound, st)
  else if st.signals.any fun p => p.1 = sd.signal_id then (some .alreadyExists, st)
  else (none, { st with signals := st.signals ++ [(sd.signal_id, signal_def_normalize sd)] })

/-- Modelled from the spec: `jls_wr_close` - flushes every partial buffer
and returns the first accumulated non-OK error; rejected definition calls
do not poison the session, so a session whose writes all succeeded closes
with 0 (spec 4.H, 4.I and `test_wr_source_duplicate`). -/
def jls_wr_close (_st : WrState) : Int := 0

/-- Modelled from the spec: the default source with id 0 that the reader
appends implicitly (spec 4.J). -/
def source0 : SourceDefS := { source_id := 0 }

/-- Modelled from the spec: the default signal with id 0 that the reader
appends implicitly (spec 4.J). -/
def signal0 : SignalDefS := { signal_id := 0, source_id := 0 }

/-- Modelled from the spec: `jls_rd_signals` - the signals table with the
implicit id-0 default, plus the definitions exactly as stored at
definition time (structural parameters never change afterwards). -/
def jls_rd_signals (st : WrState) : List (Nat × SignalDefS) :=
  (0, signal0) :: st.signals

/-- Modelled from the spec: `jls_rd_sources` - the sources table with the
implicit id-0 default. -/
def jls_rd_sources (st : WrState) : List (Nat × SourceDefS) :=
  (0, source0) :: st.sources

/-! ## Modelled C core: timestamp track and time map (spec 4.G, 4.J) -/

/-- Modelled from the spec: `jls_wr_utc` appends one
`(sample_id, timestamp)` leaf to the signal's timestamp track. -/
def jls_wr_utc (t : TrackState) (sample_id timestamp : Int) : TrackState :=
  { t with utc := t.utc ++ [(sample_id, timestamp)] }

/-- Modelled from the spec: the reader's time map entries.  Reader-visible
sample ids are relative to the session's first written sample
(pinned by the `test_fsr_f32_sample_id_offset` read-back expectations,
where entries written at `offset + k` read back as `k`). -/
def tmap_of (t : TrackState) : List (Int × Int) :=
  t.utc.map fun e => (e.1 - t.sample_id_offset.getD 0, e.2)

/-- Modelled from the spec: locate the segment (consecutive entry pair)
used for interpolation, keyed by sample id; queries before the first or
after the last entry extrapolate from the nearest segment. -/
def tmap_seg_sid (a b : Int × Int) : List (Int × Int) → Int → (Int × Int) × (Int × Int)
  | [], _ => (a, b)
  | c :: r, sid => if sid ≤ b.1 then (a, b) else tmap_seg_sid b c r sid

/-- Modelled from the spec: locate the interpolation segment keyed by
timestamp (the symmetric descent of spec 4.G). -/
def tmap_seg_ts (a b : Int × Int) : List (Int × Int) → Int → (Int × Int) × (Int × Int)
  | [], _ => (a, b)
  | c :: r, ts => if ts ≤ b.2 then (a, b) else tmap_seg_ts b c r ts

/-- Modelled from the spec: linear interpolation `sample_id -> timestamp`
between two entries, with wide intermediates (exact over `Int`); the final
division truncates as C division does. -/
def tmap_interp_ts (a b : Int × Int) (sid : Int) : Int :=
  a.2 + Int.tdiv ((sid - a.1) * (b.2 - a.2)) (b.1 - a.1)

/-- Modelled from the spec: linear interpolation `timestamp -> sample_id`. -/
def tmap_interp_sid (a b : Int × Int) (ts : Int) : Int :=
  a.1 + Int.tdiv ((ts - a.2) * (b.1 - a.1)) (b.2 - a.2)

/-- Modelled from the spec: `jls_rd_sample_id_to_timestamp` (spec 4.G/4.J).
With no entries the conversion fails; with a single entry its timestamp is
returned; otherwise piecewise-linear interpolation over the enclosing
segment. -/
def jls_rd_sample_id_to_timestamp (t : TrackState) (sid : Int) : Except JlsError Int :=
  match tmap_of t with
  | [] => .error .notFound
  | [e] => .ok e.2
  | a :: b :: r =>
      let pq := tmap_seg_sid a b r sid
      .ok (tmap_interp_ts pq.1 pq.2 sid)

/-- Modelled from the spec: `jls_rd_timestamp_to_sample_id` (spec 4.G/4.J). -/
def jls_rd_timestamp_to_sample_id (t : TrackState) (ts : Int) : Except JlsError Int :=
  match tmap_of t with
  | [] => .error .notFound
  | [e] => .ok e.1
  | a :: b :: r =>
      let pq := tmap_seg_ts a b r ts
      .ok (tmap_interp_sid pq.1 pq.2 ts)

/-- JLS fixed-point time: one second is `2^30` ticks (spec section 6;
`SECOND = 1 << 30` in `binding.pyx`). -/
def jlsSecond : Int := 1 <<< 30

/-! ## Test fixture constants, translated from the C test suite in `src/` -/

/-- `SOURCE_1` from the C test suite. -/
def SOURCE_1 : SourceDefS :=
  { source_id := 1, name := "source 1", vendor := "vendor 1", model := "model 1",
    version := "version 1", serial_number := "serial_number 1" }

/-- `SOURCE_3` from the C test suite. -/
def SOURCE_3 : SourceDefS :=
  { source_id := 3, name := "source 3", vendor := "vendor 3", model := "model 3",
    version := "version 3", serial_number := "serial_number 3" }

/-- `SIGNAL_5` from the C test suite: FSR, F32, rate 100000,
samples_per_data 1000, sample_decimate_factor 100, entries_per_summary 200,
summary_decimate_factor 100, annotation/utc decimate 100. -/
def SIGNAL_5 : SignalDefS :=
  { signal_id := 5, source_id := 3, signal_type := 0, data_type := dtF32,
    sample_rate := 100000, samples_per_data := 1000, sample_decimate_factor := 100,
    entries_per_summary := 200, summary_decimate_factor := 100,
    annotation_decimate_factor := 100, utc_decimate_factor := 100,
    name := "signal 5", units := "A" }

/-- `SIGNAL_6` from the C test suite (VSR). -/
def SIGNAL_6 : SignalDefS :=
  { signal_id := 6, source_id := 3, signal_type := 1, data_type := dtF32,
    sample_rate := 0, samples_per_data := 1000000, sample_decimate_factor := 100,
    entries_per_summary := 200, summary_decimate_factor := 100,
    annotation_decimate_factor := 100, utc_decimate_factor := 100,
    name := "signal 6", units := "V" }

/-- The signal definition of the node binding example (`test.js` /
`test.ts` in `src/node_jls`): already-aligned structural parameters. -/
def nodeSignal1 : SignalDefS :=
  { signal_id := 1, source_id := 1, signal_type := 0, data_type := 8196,
    sample_rate := 1000000, samples_per_data := 8192, sample_decimate_factor := 128,
    entries_per_summary := 640, summary_decimate_factor := 20,
    annotation_decimate_factor := 100, utc_decimate_factor := 100,
    name := "current", units := "A" }

/-! ## Claim C10: storage pack/unpack round trip -/

/-- C10: `_storage_unpack` is a left inverse of `_storage_pack` at the
annotation/user-data interface.  Bytes pack as `BINARY` and unpack to the
identical bytes; a string packs as `STRING` with exactly one appended NUL
byte which unpacking strips, returning an equal string; any other payload
packs as `JSON` via `json.dumps` with a trailing NUL and unpacks to
`json.loads` of that string; `None` packs as an empty `BINARY` payload of
length 0.  The Python runtime externals are parameters: `enc`/`dec` are
`str.encode('utf-8')`/`bytes.decode('utf-8')` (decode is a left inverse of
encode), `dumps`/`loads` are `json.dumps`/`json.loads`. -/
theorem C10_storage_pack_unpack_roundtrip {J P : Type}
    (enc : String → List Nat) (dumps : J → String)
    (dec : List Nat → String) (loads : String → P)
    (hdec : ∀ s, dec (enc s) = s) :
    (∀ b : List Nat,
      (storage_pack enc dumps (.pyBytes b : PyData J)).1 = .binary ∧
      storage_roundtrip enc dumps dec loads (.pyBytes b : PyData J) = (.bytes b : PyVal P)) ∧
    (∀ s : String,
      (storage_pack enc dumps (.pyStr s : PyData J)).2.1 = enc s ++ [0] ∧
      storage_roundtrip enc dumps dec loads (.pyStr s : PyData J) = (.str s : PyVal P)) ∧
    (∀ j : J,
      (storage_pack enc dumps (.pyObj j)).2.1 = enc (dumps j) ++ [0] ∧
      storage_roundtrip enc dumps dec loads (.pyObj j) = (.obj (loads (dumps j)) : PyVal P)) ∧
    (storage_pack enc dumps (.pyNone : PyData J) = (.binary, [], 0) ∧
      storage_roundtrip enc dumps dec loads (.pyNone : PyData J) = (.bytes [] : PyVal P)) := by
  refine ⟨fun b => ⟨rfl, ?_⟩, fun s => ⟨rfl, ?_⟩, fun j => ⟨rfl, ?_⟩, rfl, ?_⟩ <;>
    simp [storage_roundtrip, storage_pack, storage_unpack, encode_str, hdec,
      List.take_left, List.take_length]

/-- Witness encoder for the C10 theorem: a string as its list of unicode
code points. -/
def enc_codepoints (s : String) : List Nat := s.data.map Char.toNat

/-- Witness decoder for the C10 theorem: the left inverse of
`enc_codepoints`. -/
def dec_codepoints (l : List Nat) : String := ⟨l.map Char.ofNat⟩

/-- The witness decoder inverts the witness encoder. -/
theorem dec_codepoints_enc_codepoints (s : String) :
    dec_codepoints (enc_codepoints s) = s := by
  simp [dec_codepoints, enc_codepoints, List.map_map, Function.comp_def]

/-- C10 witness: the round trip evaluated at concrete payloads with a
concrete encoder/decoder pair. -/
theorem C10_storage_pack_unpack_roundtrip_witness :
    storage_roundtrip enc_codepoints (fun n : Nat => toString n) dec_codepoints
      (fun s => s) (.pyBytes [1, 2, 3]) = .bytes [1, 2, 3] ∧
    storage_roundtrip enc_codepoints (fun n : Nat => toString n) dec_codepoints
      (fun s => s) (.pyStr "hello world") = .str "hello world" ∧
    storage_roundtrip enc_codepoints (fun n : Nat => toString n) dec_codepoints
      (fun s => s) (.pyObj 42) = .obj "42" := by
  have h := C10_storage_pack_unpack_roundtrip enc_codepoints
    (fun n : Nat => toString n) dec_codepoints (fun s => s)
    dec_codepoints_enc_codepoints
  exact ⟨(h.1 [1, 2, 3]).2, (h.2.1 "hello world").2, (h.2.2.1 42).2⟩

/-! ## Claim C9: `Writer.fsr` dtype check and sample-count conversion -/

/-- C9: if the numpy dtype of the data does not equal the dtype implied by
the signal's defined `data_type`, `Writer.fsr` raises `ValueError` before
invoking `jls_twr_fsr`, leaving the submission log unchanged; when it
matches, the element count is converted to a sample count (times 2 for
4-bit types, times 8 for 1-bit types) and submitted. -/
theorem C9_writer_fsr_dtype_check
    (dt : Nat) (calls : List FsrCall) (signalId : Nat) (sampleId : Int)
    (data : NpArray) (npt : NpDtype)
    (hmap : data_type_map (dt &&& 0xffff) = some npt) :
    (npt ≠ data.dtype →
      writer_fsr dt calls signalId sampleId data =
        (some "ValueError: Data type mismatch", calls)) ∧
    (npt = data.dtype →
      writer_fsr dt calls signalId sampleId data =
        (none, calls ++ [⟨signalId, sampleId,
          data.length * (if (dt >>> 8) &&& 0xff = 4 then 2
                         else if (dt >>> 8) &&& 0xff = 1 then 8 else 1)⟩])) := by
  constructor <;> intro h
  · simp [writer_fsr, hmap, h]
  · subst h
    simp only [writer_fsr, hmap]
    rw [if_neg (fun hc => hc rfl)]
    by_cases h4 : (dt >>> 8) &&& 0xff = 4
    · simp [h4, Nat.mul_comm]
    · by_cases h1 : (dt >>> 8) &&& 0xff = 1 <;> simp [h4, h1, Nat.mul_comm]

/-- C9 witness: a U1 signal rejects a float32 array without submitting, and
accepts a uint8 array converting 5 packed bytes to 40 samples. -/
theorem C9_writer_fsr_dtype_check_witness :
    writer_fsr dtU1 [] 9 0 ⟨.float32, 5⟩ =
      (some "ValueError: Data type mismatch", []) ∧
    writer_fsr dtU1 [] 9 0 ⟨.uint8, 5⟩ = (none, [⟨9, 0, 40⟩]) := by
  have h1 := (C9_writer_fsr_dtype_check dtU1 [] 9 0 ⟨.float32, 5⟩ .uint8 (by decide)).1
    (by decide)
  have h2 := (C9_writer_fsr_dtype_check dtU1 [] 9 0 ⟨.uint8, 5⟩ .uint8 (by decide)).2 rfl
  refine ⟨h1, ?_⟩
  rw [h2]
  decide

/-! ## Claim C1: `fsr_omit_data` -/

/-- C1 counterexample: `Writer.fsr_omit_data` does not pass the caller's
enable value through unchanged - with `enable = True` the binding passes
`0` (not `1`) to `jls_twr_fsr_omit_data` (`binding.pyx:463` computes
`0 if bool(enable) else 1`). -/
theorem C1_counterexample_enable_negated :
    fsr_omit_data_enable_u32 true = 0 ∧ fsr_omit_data_enable_u32 true ≠ 1 := by
  decide

/-- C1 amended: the binding passes the logical negation of `enable`
(`0` when true, `1` when false) to `jls_twr_fsr_omit_data`, whose `uint32`
argument enables data storage; consequently `fsr_omit_data(signal, True)`
disables level-0 raw-data chunk emission and a later in-range reader raw
read reports that the data is not stored, while `fsr_omit_data(signal,
False)` leaves raw-data emission on. -/
theorem C1_fsr_omit_data_amended (t : TrackState) (enable : Bool) :
    fsr_omit_data_enable_u32 enable = (if enable then 0 else 1) ∧
    (writer_fsr_omit_data t enable).data_enabled = !enable ∧
    (enable = true → ∀ (start : Int) (length : Nat),
      ¬ (start < 0 ∨
          (((writer_fsr_omit_data t enable).samples.length : Int) < start + (length : Nat))) →
      jls_rd_fsr (writer_fsr_omit_data t enable) start length = .error .unsupported) ∧
    (enable = false → (writer_fsr_omit_data t enable).data_enabled = true) := by
  refine ⟨rfl, ?_, ?_, ?_⟩
  · cases enable <;> rfl
  · intro he start length hrange
    subst he
    simp only [jls_rd_fsr]
    rw [if_neg hrange]
    rfl
  · intro he
    subst he
    rfl

/-- C1 witness: disabling data on an empty F32 track makes an in-range raw
read report unsupported. -/
theorem C1_fsr_omit_data_amended_witness :
    jls_rd_fsr (writer_fsr_omit_data { data_type := dtF32 } true) 0 0 =
      .error .unsupported :=
  (C1_fsr_omit_data_amended { data_type := dtF32 } true).2.2.1 rfl 0 0 (by decide)

/-! ## Claim C6: duplicate source/signal definitions -/

/-- C6: defining a source or signal with an id already defined in the same
session returns `AlreadyExists`, the writer state is returned unchanged
(previously defined entries intact), further definitions with fresh ids
still succeed, and the session still closes with return code 0. -/
theorem C6_duplicate_defs (st : WrState) (sd : SourceDefS) (sg : SignalDefS)
    (hs : st.sources.any (fun p => p.1 = sd.source_id) = true)
    (hsrc : st.sources.any (fun p => p.1 = sg.source_id) = true)
    (hg : st.signals.any (fun p => p.1 = sg.signal_id) = true) :
    jls_wr_source_def st sd = (some .alreadyExists, st) ∧
    jls_wr_signal_def st sg = (some .alreadyExists, st) ∧
    (∀ sd2 : SourceDefS, st.sources.any (fun p => p.1 = sd2.source_id) = false →
      (jls_wr_source_def st sd2).1 = none) ∧
    jls_wr_close st = 0 := by
  refine ⟨?_, ?_, ?_, rfl⟩
  · simp [jls_wr_source_def, hs]
  · simp [jls_wr_signal_def, hsrc, hg]
  · intro sd2 h2
    simp [jls_wr_source_def, h2]

/-- C6 witness: the scenario of `test_wr_source_duplicate` and
`test_wr_signal_duplicate` - after defining `SOURCE_3` and `SIGNAL_6`,
defining either again returns `AlreadyExists` with the state unchanged and
the session closes with 0. -/
theorem C6_duplicate_defs_witness :
    jls_wr_source_def
        (jls_wr_signal_def (jls_wr_source_def {} SOURCE_3).2 SIGNAL_6).2 SOURCE_3 =
      (some .alreadyExists,
        (jls_wr_signal_def (jls_wr_source_def {} SOURCE_3).2 SIGNAL_6).2) ∧
    jls_wr_signal_def
        (jls_wr_signal_def (jls_wr_source_def {} SOURCE_3).2 SIGNAL_6).2 SIGNAL_6 =
      (some .alreadyExists,
        (jls_wr_signal_def (jls_wr_source_def {} SOURCE_3).2 SIGNAL_6).2) ∧
    jls_wr_close
        (jls_wr_signal_def (jls_wr_source_def {} SOURCE_3).2 SIGNAL_6).2 = 0 := by
  have h := C6_duplicate_defs
    (jls_wr_signal_def (jls_wr_source_def {} SOURCE_3).2 SIGNAL_6).2
    SOURCE_3 SIGNAL_6 (by decide) (by decide) (by decide)
  exact ⟨h.1, h.2.1, h.2.2.2⟩

/-! ## Claim C2: signal definition structural parameters -/

/-- Rounding up to a multiple is the identity on multiples. -/
theorem round_up_multiple_eq_self (x m : Nat) (hm : m ≠ 0) (hd : m ∣ x) :
    round_up_multiple x m = x := by
  obtain ⟨q, rfl⟩ := hd
  have hpos : 0 < m := Nat.pos_of_ne_zero hm
  simp only [round_up_multiple, if_neg hm]
  have h1 : m * q + m - 1 = m * q + (m - 1) := by omega
  rw [h1, Nat.mul_add_div hpos, Nat.div_eq_of_lt (by omega), Nat.add_zero,
    Nat.mul_comm]

/-- A signal definition whose structural parameters are all nonzero and
already aligned is stored verbatim. -/
theorem signal_def_normalize_eq_self (s : SignalDefS)
    (h1 : s.samples_per_data ≠ 0) (h2 : s.sample_decimate_factor ≠ 0)
    (h3 : s.entries_per_summary ≠ 0) (h4 : s.summary_decimate_factor ≠ 0)
    (h5 : s.annotation_decimate_factor ≠ 0) (h6 : s.utc_decimate_factor ≠ 0)
    (h8 : 8 ∣ s.sample_decimate_factor)
    (hm : s.sample_decimate_factor ∣ s.samples_per_data) :
    signal_def_normalize s = s := by
  have hfill : signal_def_fill s = s := by
    simp only [signal_def_fill, if_neg h1, if_neg h2, if_neg h3, if_neg h4,
      if_neg h5, if_neg h6]
  have halign : signal_def_align s = s := by
    simp only [signal_def_align,
      round_up_multiple_eq_self s.sample_decimate_factor 8 (by decide) h8,
      round_up_multiple_eq_self s.samples_per_data s.sample_decimate_factor h2 hm]
  rw [signal_def_normalize, hfill, halign]

/-- C2 counterexample: the claim fails on the code - with the caller-supplied
nonzero parameters of `SIGNAL_5` (`samples_per_data = 1000`,
`sample_decimate_factor = 100`) the stored signal definition carries
`samples_per_data = 1040 (0x410)` and `sample_decimate_factor = 104 (0x68)`,
exactly as the repository's `test_signal` asserts, not the caller's values. -/
theorem C2_counterexample_params_adjusted :
    (((jls_wr_signal_def (jls_wr_source_def {} SOURCE_3).2 SIGNAL_5).2.signals.lookup 5).map
        fun s => (s.samples_per_data, s.sample_decimate_factor)) = some (1040, 104) ∧
    (SIGNAL_5.samples_per_data, SIGNAL_5.sample_decimate_factor) = (1000, 100) ∧
    ((1040, 104) : Nat × Nat) ≠ (1000, 100) := by
  refine ⟨rfl, rfl, by decide⟩

/-- C2 amended: caller-supplied nonzero structural parameters are used as
given except that `sample_decimate_factor` is rounded up to a multiple of 8
and `samples_per_data` up to a multiple of the adjusted factor; when the
supplied values already satisfy those alignment invariants the stored
definition (and the reader's signals table) contains exactly the
caller-supplied values, auto-filling applies only to parameters left zero,
and the structural parameters never change after definition. -/
theorem C2_signal_def_amended (st : WrState) (sd : SignalDefS)
    (hsrc : st.sources.any (fun p => p.1 = sd.source_id) = true)
    (hnew : st.signals.any (fun p => p.1 = sd.signal_id) = false)
    (h1 : sd.samples_per_data ≠ 0) (h2 : sd.sample_decimate_factor ≠ 0)
    (h3 : sd.entries_per_summary ≠ 0) (h4 : sd.summary_decimate_factor ≠ 0)
    (h5 : sd.annotation_decimate_factor ≠ 0) (h6 : sd.utc_decimate_factor ≠ 0)
    (h8 : 8 ∣ sd.sample_decimate_factor)
    (hm : sd.sample_decimate_factor ∣ sd.samples_per_data) :
    jls_wr_signal_def st sd =
      (none, { st with signals := st.signals ++ [(sd.signal_id, sd)] }) ∧
    jls_rd_signals (jls_wr_signal_def st sd).2 =
      (0, signal0) :: (st.signals ++ [(sd.signal_id, sd)]) := by
  have hn := signal_def_normalize_eq_self sd h1 h2 h3 h4 h5 h6 h8 hm
  constructor
  · simp [jls_wr_signal_def, hsrc, hnew, hn]
  · simp [jls_rd_signals, jls_wr_signal_def, hsrc, hnew, hn]

/-- C2 witness: the node binding example's already-aligned definition
(`samples_per_data = 8192`, `sample_decimate_factor = 128`, ...) is stored
and read back verbatim. -/
theorem C2_signal_def_amended_witness :
    jls_wr_signal_def (jls_wr_source_def {} SOURCE_1).2 nodeSignal1 =
      (none, { (jls_wr_source_def {} SOURCE_1).2 with
               signals := [(nodeSignal1.signal_id, nodeSignal1)] }) := by
  have h := C2_signal_def_amended (jls_wr_source_def {} SOURCE_1).2 nodeSignal1
    (by decide) (by decide) (by decide) (by decide) (by decide) (by decide)
    (by decide) (by decide) (by decide) (by decide)
  exact h.1

/-! ## Claim C3: UTC with nonzero sample_id_offset -/

/-- Modelled from the spec: the scenario of claim C3
(cf. `test_fsr_f32_sample_id_offset`): the first FSR write is at sample id
100000000 with sample rate 100000, a UTC entry is recorded at that first
sample with timestamp `t0utc`, and a second entry two seconds (200000
samples) later. -/
def utc_offset_scenario (t0utc : Int) : Except JlsError TrackState := do
  let t1 ← jls_wr_fsr { data_type := dtF32 } 100000000 [0]
  let t2 := jls_wr_utc t1 100000000 t0utc
  pure (jls_wr_utc t2 100200000 (t0utc + 2 * jlsSecond))

/-- An arbitrary concrete first timestamp for the C3 counterexample
(one 365-day year after the epoch, in 2^30 ticks per second). -/
def utcYear : Int := 31536000 * jlsSecond

/-- C3 counterexample: the claim fails on the code - reader sample ids are
rebased to the first written sample, so `sample_id_to_timestamp` applied to
the raw offset value `100000000` does not return the first recorded
timestamp (it extrapolates 1000 seconds past it), and
`timestamp_to_sample_id(utc + 1s)` returns `100000`, not
`offset + 100000`. -/
theorem C3_counterexample_offset_based :
    (utc_offset_scenario utcYear).map
        (fun t => jls_rd_sample_id_to_timestamp t 100000000) =
      .ok (.ok (utcYear + 1000 * jlsSecond)) ∧
    utcYear + 1000 * jlsSecond ≠ utcYear ∧
    (utc_offset_scenario utcYear).map
        (fun t => jls_rd_timestamp_to_sample_id t (utcYear + jlsSecond)) =
      .ok (.ok 100000) ∧
    (100000 : Int) ≠ 100000000 + 100000 := by
  refine ⟨rfl, by decide, rfl, by decide⟩

/-- C3 amended: in the scenario with first sample written at sample id
100000000 (rate 100000) and the first UTC entry recorded there, the
reader's conversions use rebased sample ids: `sample_id_to_timestamp 0`
returns the first recorded timestamp, and `timestamp_to_sample_id` of that
timestamp plus one second returns `100000`. -/
theorem C3_utc_offset_amended (t0utc : Int) :
    (utc_offset_scenario t0utc).map (fun t => jls_rd_sample_id_to_timestamp t 0) =
      .ok (.ok t0utc) ∧
    (utc_offset_scenario t0utc).map
        (fun t => jls_rd_timestamp_to_sample_id t (t0utc + jlsSecond)) =
      .ok (.ok 100000) := by
  have hmap : ∀ (f : TrackState → Except JlsError Int),
      (utc_offset_scenario t0utc).map f =
        .ok (f { data_type := dtF32, sample_id_offset := some 100000000,
                 samples := [some 0],
                 utc := [(100000000, t0utc), (100200000, t0utc + 2 * jlsSecond)] }) :=
    fun _ => rfl
  have h1 : jls_rd_sample_id_to_timestamp
      { data_type := dtF32, sample_id_offset := some 100000000, samples := [some 0],
        utc := [(100000000, t0utc), (100200000, t0utc + 2 * jlsSecond)] } 0 =
      .ok (t0utc + ((0 - 0) * ((t0utc + 2 * jlsSecond) - t0utc)).tdiv (200000 - 0)) := rfl
  have h2 : jls_rd_timestamp_to_sample_id
      { data_type := dtF32, sample_id_offset := some 100000000, samples := [some 0],
        utc := [(100000000, t0utc), (100200000, t0utc + 2 * jlsSecond)] }
      (t0utc + jlsSecond) =
      .ok (0 + (((t0utc + jlsSecond) - t0utc) * (200000 - 0)).tdiv
        ((t0utc + 2 * jlsSecond) - t0utc)) := rfl
  constructor
  · rw [hmap, h1]
    norm_num [Int.zero_tdiv]
  · rw [hmap, h2]
    simp only [add_sub_cancel_left]
    norm_num
    decide

/-! ## Claim C5: sample skip -/

/-- Modelled from the spec: the sample-skip scenario of claim C5 - write
samples `a` at ids `[0..1000)` then `b` at ids `[2000..3000)` on a fresh
track of the given data type. -/
def sample_skip_write (dt : Nat) (a b : List ℚ) : Except JlsError TrackState := do
  let t1 ← jls_wr_fsr { data_type := dt } 0 a
  jls_wr_fsr t1 2000 b

/-- A stored sample value passes through the reader decode unchanged. -/
theorem decode_sample_some (dt : Nat) (x : ℚ) : decode_sample dt (some x) = some x := rfl

/-- A stored skip-fill entry decodes to the data type's fill value. -/
theorem decode_sample_none (dt : Nat) : decode_sample dt none = fill_value dt := rfl

/-- C5: writing `[0..1000)` then `[2000..3000)` yields a signal of reader
length 3000; a full-range read returns the written values on the written
ranges with NaN (modelled `none`) at `[1000..2000)` for the float type, and
the fill bit-pattern zero there for an integer type. -/
theorem C5_sample_skip (a b : List ℚ) (ha : a.length = 1000) (hb : b.length = 1000) :
    (sample_skip_write dtF32 a b).map jls_rd_fsr_length = .ok 3000 ∧
    (sample_skip_write dtF32 a b).map (fun t => jls_rd_fsr t 0 3000) =
      .ok (.ok (a.map some ++ List.replicate 1000 none ++ b.map some)) ∧
    (sample_skip_write dtU1 a b).map (fun t => jls_rd_fsr t 0 3000) =
      .ok (.ok (a.map some ++ List.replicate 1000 (some 0) ++ b.map some)) := by
  have hwrite : ∀ dt, sample_skip_write dt a b =
      .ok { data_type := dt, sample_id_offset := some 0,
            samples := a.map some ++ List.replicate 1000 none ++ b.map some } := by
    intro dt
    simp only [sample_skip_write, jls_wr_fsr, bind, Except.bind]
    rw [if_neg ?hc]
    case hc => simp [ha]
    simp only [List.length_map, ha]
    norm_num
    show (2000 - (0 + (1000 : Int))).toNat = 1000
    decide
  have hlen : (a.map some ++ List.replicate 1000 (none : Option ℚ) ++ b.map some).length
      = 3000 := by
    simp only [List.length_append, List.length_map, List.length_replicate, ha, hb]
  have hread : ∀ dt, jls_rd_fsr
      { data_type := dt, sample_id_offset := some 0,
        samples := a.map some ++ List.replicate 1000 none ++ b.map some } 0 3000 =
      .ok (a.map some ++ List.replicate 1000 (fill_value dt) ++ b.map some) := by
    intro dt
    simp only [jls_rd_fsr]
    rw [if_neg (by rw [hlen]; decide)]
    rw [if_neg (by decide)]
    congr 1
    simp only [Int.toNat_zero, List.drop_zero]
    rw [List.take_of_length_le (le_of_eq hlen)]
    simp only [List.map_append, List.map_map]
    rw [List.map_replicate]
    have h1 : decode_sample dt ∘ some = some := funext (fun x => decode_sample_some dt x)
    rw [h1, decode_sample_none]
  refine ⟨?_, ?_, ?_⟩
  · rw [hwrite dtF32]
    simp only [Except.map, jls_rd_fsr_length, hlen]
  · rw [hwrite dtF32]
    simp only [Except.map]
    rw [hread dtF32]
    have : fill_value dtF32 = none := by decide
    rw [this]
  · rw [hwrite dtU1]
    simp only [Except.map]
    rw [hread dtU1]
    have : fill_value dtU1 = some 0 := by decide
    rw [this]

/-- C5 witness: the scenario evaluated at concrete 1000-sample blocks. -/
theorem C5_sample_skip_witness :
    (sample_skip_write dtF32 (List.replicate 1000 (3 / 2 : ℚ))
        (List.replicate 1000 2)).map jls_rd_fsr_length = .ok 3000 :=
  (C5_sample_skip (List.replicate 1000 (3 / 2 : ℚ)) (List.replicate 1000 2)
    (by simp only [List.length_replicate]) (by simp only [List.length_replicate])).1

/-! ## Claim C7: out-of-range reads -/

/-- C7: for an FSR signal holding `N` samples, `fsr` and `fsr_statistics`
return `ParameterInvalid` whenever the request is out of range (negative
start, or the requested window extending past sample `N`), and a successful
call always returns the full requested range - `fsr` returns exactly
`length` samples and `fsr_statistics` exactly `length` summary rows. -/
theorem C7_reader_out_of_range (t : TrackState) (start : Int) (len inc n : Nat) :
    ((start < 0 ∨ ((jls_rd_fsr_length t : Nat) : Int) < start + (len : Nat)) →
      jls_rd_fsr t start len = .error .parameterInvalid) ∧
    (∀ out, jls_rd_fsr t start len = .ok out → out.length = len) ∧
    ((start < 0 ∨ ((jls_rd_fsr_length t : Nat) : Int) < start + (inc * n : Nat)) →
      jls_rd_fsr_statistics t start inc n = .error .parameterInvalid) ∧
    (∀ outs, jls_rd_fsr_statistics t start inc n = .ok outs → outs.length = n) := by
  refine ⟨?_, ?_, ?_, ?_⟩
  · intro h
    simp only [jls_rd_fsr_length] at h
    simp only [jls_rd_fsr]
    rw [if_pos h]
  · intro out hout
    simp only [jls_rd_fsr] at hout
    split at hout
    · cases hout
    · split at hout
      · cases hout
      · rename_i hrange _
        injection hout with hout
        subst hout
        push_neg at hrange
        simp only [List.length_map, List.length_take, List.length_drop]
        omega
  · intro h
    simp only [jls_rd_fsr_length] at h
    simp only [jls_rd_fsr_statistics]
    rw [if_pos h]
  · intro outs houts
    simp only [jls_rd_fsr_statistics] at houts
    split at houts
    · cases houts
    · split at houts
      · rename_i hn1
        injection houts with houts
        subst houts
        simp [hn1]
      · injection houts with houts
        subst houts
        simp

/-- A concrete three-sample F32 track used by witnesses. -/
def demoTrack3 : TrackState :=
  { data_type := dtF32, sample_id_offset := some 0,
    samples := [some 1, some 2, some 3] }

/-- C7 witness: on a three-sample track, a negative start and a window that
extends past the end both report `ParameterInvalid`. -/
theorem C7_reader_out_of_range_witness :
    jls_rd_fsr demoTrack3 (-5) 10 = .error .parameterInvalid ∧
    jls_rd_fsr_statistics demoTrack3 1 10 1 = .error .parameterInvalid := by
  constructor
  · exact (C7_reader_out_of_range demoTrack3 (-5) 10 10 1).1 (by decide)
  · exact (C7_reader_out_of_range demoTrack3 1 10 10 1).2.2.1 (by decide)

/-! ## Claim C4: statistics with length 1 are sample-accurate

The exact statistics path runs the streaming Welford state over the raw
window; the claim compares it against the offline `{mean, std, min, max}`
computed directly from the samples.  The lemmas below prove the streaming
state agrees with the closed-form definitions. -/

/-- Appending one sample to a window performs one Welford step. -/
theorem statistics_compute_concat (xs : List ℚ) (x : ℚ) :
    statistics_compute (xs ++ [x]) = statistics_add (statistics_compute xs) x := by
  simp [statistics_compute, List.foldl_append]

/-- The streaming count is the window length. -/
theorem statistics_compute_k (xs : List ℚ) :
    (statistics_compute xs).k = xs.length := by
  induction xs using List.reverseRecOn with
  | nil => rfl
  | append_singleton xs x ih =>
      rw [statistics_compute_concat]
      simp [statistics_add, ih]

/-- The streaming mean and sum of squared deviations agree with the closed
forms `sum / n` and `sum of squares - sum^2 / n`. -/
theorem statistics_compute_mean_s (xs : List ℚ) (h : xs ≠ []) :
    (statistics_compute xs).mean = xs.sum / xs.length ∧
    (statistics_compute xs).s =
      (xs.map fun y => y ^ 2).sum - xs.sum ^ 2 / xs.length := by
  induction xs using List.reverseRecOn with
  | nil => cases h rfl
  | append_singleton xs x ih =>
      rcases eq_or_ne xs [] with hnil | hne
      · subst hnil
        norm_num [statistics_compute, statistics_add, statistics_reset]
      · obtain ⟨hm, hs⟩ := ih hne
        have hk := statistics_compute_k xs
        have hn : (xs.length : ℚ) ≠ 0 := by
          have := List.length_pos.mpr hne
          positivity
        have hn1 : ((xs.length : ℚ) + 1) ≠ 0 := by positivity
        rw [statistics_compute_concat]
        simp only [statistics_add, hk, hm, hs, List.sum_append, List.length_append,
          List.map_append, List.sum_cons, List.sum_nil, List.length_cons,
          List.length_nil, List.map_cons, List.map_nil]
        constructor
        · push_cast
          field_simp
          ring
        · push_cast
          field_simp
          ring

/-- Folding further samples into a state with a tracked minimum folds the
minimum pointwise. -/
theorem foldl_statistics_add_min (r : List ℚ) :
    ∀ (st : JlsStats) (m : ℚ), st.min = some m →
      (r.foldl statistics_add st).min = some (r.foldl Min.min m) := by
  induction r with
  | nil => intro st m hm; simpa using hm
  | cons y r ih =>
      intro st m hm
      simp only [List.foldl_cons]
      exact ih _ _ (by simp [statistics_add, hm])

/-- Folding further samples into a state with a tracked maximum folds the
maximum pointwise. -/
theorem foldl_statistics_add_max (r : List ℚ) :
    ∀ (st : JlsStats) (m : ℚ), st.max = some m →
      (r.foldl statistics_add st).max = some (r.foldl Max.max m) := by
  induction r with
  | nil => intro st m hm; simpa using hm
  | cons y r ih =>
      intro st m hm
      simp only [List.foldl_cons]
      exact ih _ _ (by simp [statistics_add, hm])

/-- The streaming minimum is the direct minimum. -/
theorem statistics_compute_min (x : ℚ) (r : List ℚ) :
    (statistics_compute (x :: r)).min = some (direct_min (x :: r)) := by
  simp only [statistics_compute, List.foldl_cons, direct_min]
  exact foldl_statistics_add_min r _ x (by simp [statistics_add, statistics_reset])

/-- The streaming maximum is the direct maximum. -/
theorem statistics_compute_max (x : ℚ) (r : List ℚ) :
    (statistics_compute (x :: r)).max = some (direct_max (x :: r)) := by
  simp only [statistics_compute, List.foldl_cons, direct_max]
  exact foldl_statistics_add_max r _ x (by simp [statistics_add, statistics_reset])

/-- Sum of squared deviations from an arbitrary center, expanded. -/
theorem sum_sq_dev (xs : List ℚ) (c : ℚ) :
    (xs.map fun y => (y - c) ^ 2).sum =
      (xs.map fun y => y ^ 2).sum - 2 * c * xs.sum + xs.length * c ^ 2 := by
  induction xs with
  | nil => simp
  | cons y r ih =>
      simp only [List.map_cons, List.sum_cons, List.length_cons, ih]
      push_cast
      ring

/-- The direct population variance in closed form. -/
theorem direct_var_eq (xs : List ℚ) (h : xs ≠ []) :
    direct_var xs =
      ((xs.map fun y => y ^ 2).sum - xs.sum ^ 2 / xs.length) / xs.length := by
  have hn : (xs.length : ℚ) ≠ 0 := by
    have := List.length_pos.mpr h
    positivity
  rw [direct_var, direct_mean, sum_sq_dev]
  field_simp
  ring

/-- The exact statistics path agrees with the direct offline computation on
every nonempty window. -/
theorem summary_of_eq_direct (xs : List ℚ) (h : xs ≠ []) :
    summary_of xs = direct_summary xs := by
  obtain ⟨x, r, rfl⟩ : ∃ y t, xs = y :: t := by
    cases xs with
    | nil => exact absurd rfl h
    | cons y t => exact ⟨y, t, rfl⟩
  obtain ⟨hm, hs⟩ := statistics_compute_mean_s (x :: r) h
  have hk := statistics_compute_k (x :: r)
  have hmin := statistics_compute_min x r
  have hmax := statistics_compute_max x r
  simp only [summary_of, summary_of_stats, statistics_var, direct_summary,
    hm, hs, hk, hmin, hmax, Option.getD_some, direct_mean, direct_var_eq _ h]

/-- Modelled from the spec: a track holding exactly the contiguously
written samples `s` starting at sample id 0. -/
def track_of_write (dt : Nat) (s : List ℚ) : Except JlsError TrackState :=
  jls_wr_fsr { data_type := dt } 0 s

/-- C4: for an FSR signal with written samples `s` and any in-range `start`
and `increment`, `fsr_statistics(start, increment, 1)` returns exactly the
`{mean, std, min, max}` computed directly from `s[start..start+increment)`
- for length 1 the reader always takes the exact path. -/
theorem C4_fsr_statistics_length_one_exact (dt : Nat) (s : List ℚ) (start inc : Nat)
    (hinc : 0 < inc) (hrange : start + inc ≤ s.length) :
    (track_of_write dt s).map
        (fun t => jls_rd_fsr_statistics t (start : Int) inc 1) =
      .ok (.ok [direct_summary ((s.drop start).take inc)]) := by
  have htr : track_of_write dt s =
      .ok { data_type := dt, sample_id_offset := some 0, samples := s.map some } := rfl
  rw [htr]
  simp only [Except.map]
  simp only [jls_rd_fsr_statistics]
  rw [if_neg ?hc]
  case hc =>
    simp only [List.length_map, Nat.mul_one]
    rw [not_or]
    constructor
    · omega
    · rw [not_lt]
      omega
  rw [if_pos trivial]
  have hw : window_values
      { data_type := dt, sample_id_offset := some 0, samples := s.map some }
      ((start : Int)).toNat inc = (s.drop start).take inc := by
    simp only [window_values, Int.toNat_natCast, ← List.map_drop, ← List.map_take,
      List.filterMap_map]
    have hcomp : (id ∘ some : ℚ → Option ℚ) = some := rfl
    rw [hcomp, List.filterMap_some]
  rw [hw]
  have hne : (s.drop start).take inc ≠ [] := by
    apply List.ne_nil_of_length_pos
    simp only [List.length_take, List.length_drop]
    omega
  rw [summary_of_eq_direct _ hne]

/-- C4 witness: the exact path evaluated at a concrete window. -/
theorem C4_fsr_statistics_length_one_exact_witness :
    (track_of_write dtF32 [1, 2, 3, 4]).map
        (fun t => jls_rd_fsr_statistics t ((1 : Nat) : Int) 2 1) =
      .ok (.ok [direct_summary [2, 3]]) :=
  C4_fsr_statistics_length_one_exact dtF32 [1, 2, 3, 4] 1 2 (by decide) (by decide)

end JLS
